import Mathlib

/-!
Verification of the template expression evaluator (`fakeEval`) of the faker
repository, and of the `Faker` class constructor.

The evaluator implementation file (`src/modules/helpers/eval.ts`) is not part
of the corpus; only its test suite is. The evaluator is therefore modelled
from the specification (sections 3, 4.2, 4.3, 4.4, 7), with the repository's
own test suite as the authority on observable behaviour wherever the two
disagree. The `Faker` constructor model is taken from `src/faker.ts`
(lines 296-310).
-/

namespace FakerEval

/-- Modelled from the spec: JSON-like literal values used for call arguments
(`eval.ts` is absent; spec section 3, "Literal"). Variants: String, Number
(sign, integer part, optional fraction digits), Boolean, Null, Array, Object
(insertion order preserved). The same type serves as the runtime value a
parsed literal is converted to, the two being structurally identical. -/
inductive Lit where
  | str : String → Lit
  | num : Bool → Nat → Option String → Lit
  | bool : Bool → Lit
  | null : Lit
  | arr : List Lit → Lit
  | obj : List (String × Lit) → Lit

/-- Modelled from the spec: a runtime namespace node (spec section 3,
"Namespace node"): a terminal value, a container mapping identifier names to
further nodes, or a callable. A callable is identified by a name; its
behaviour is supplied externally through an `Invoke` oracle, matching the
spec's treatment of generator functions as opaque collaborators. -/
inductive Node where
  | value : Lit → Node
  | container : List (String × Node) → Node
  | callable : String → Node

/-- Association-list lookup used for the container view of a node. -/
def lookupIn {α : Type} : List (String × α) → String → Option α
  | [], _ => none
  | (k, v) :: rest, key => if k = key then some v else lookupIn rest key

/-- Modelled from the spec: look up a name on the current value's container
view (spec section 4.4 step 1). Containers and object-valued terminals expose
their entries; other nodes expose nothing. -/
def lookupName : Node → String → Option Node
  | .container kvs, key => lookupIn kvs key
  | .value (.obj kvs), key => Option.map Node.value (lookupIn kvs key)
  | _, _ => none

/-- Whether a node is a callable reference. -/
def isCallableNode : Node → Bool
  | .callable _ => true
  | _ => false

/-- The spec's error taxonomy (section 7): EmptyExpressionError, SyntaxError,
ResolutionError. The real code raises `FakerError` for all of them and they
are distinguished by message; the kind tag records the taxonomy. -/
inductive ErrKind where
  | emptyExpression
  | syntaxErr
  | resolution
deriving DecidableEq

/-- An evaluation error: a taxonomy kind together with the message text. -/
structure EvalError where
  kind : ErrKind
  message : String
deriving DecidableEq

/-- Parse-stage errors carry only a message; `fakeEval` wraps them with the
SyntaxError kind. -/
abbrev ParseError := String

/-- The external invocation oracle: maps a callable's identifier and the
ordered, positional argument list to the call's result node. -/
abbrev Invoke := String → List Lit → Node

/-- The empty-expression error with the message asserted by the test suite. -/
def emptyExprError : EvalError := ⟨.emptyExpression, "Eval expression cannot be empty."⟩

/-- The resolution error; its message echoes the full original expression
string, as asserted by the test suite. -/
def resolutionError (expression : String) : EvalError :=
  ⟨.resolution, "Cannot resolve expression '" ++ expression ++ "'"⟩

/-- The syntax-error message for a bad character after a call's closing
parenthesis, exactly as asserted by the test suite. -/
def afterCallMsg (c : Char) : String :=
  "Expected dot ('.'), open parenthesis ('('), or nothing after function call but got '"
    ++ c.toString ++ "'"

/-- Message for parser fuel exhaustion; unreachable for the fuel budget
`fakeEval` supplies. -/
def fuelMsg : ParseError := "Internal parser fuel exhausted"

/-- Whitespace characters, insignificant between tokens (spec section 4.1). -/
def isWsChar (c : Char) : Bool := c == ' ' || c == '\t' || c == '\n' || c == '\r'

/-- Drop leading whitespace. -/
def skipWs (cs : List Char) : List Char := cs.dropWhile isWsChar

/-- Identifier characters for path segments: everything up to a dot or an
opening parenthesis. -/
def isNameChar (c : Char) : Bool := c != '.' && c != '('

/-- Characters an unquoted fallback string may contain: everything except the
closing parenthesis and the argument separator (spec section 4.2). -/
def isUnquotedChar (c : Char) : Bool := c != ')' && c != ','

/-- Escape mapping inside quoted strings. -/
def escChar (c : Char) : Char :=
  if c = 'n' then '\n' else if c = 't' then '\t' else if c = 'r' then '\r' else c

/-- Modelled from the spec: body of a quoted string after the opening quote;
the first unescaped quote closes it, a missing close is an unterminated
literal (spec section 4.2). Returns the content and the unconsumed suffix. -/
def parseQuotedBody : List Char → Option (List Char × List Char)
  | [] => none
  | '\\' :: c :: rest =>
    Option.map (fun p => (escChar c :: p.1, p.2)) (parseQuotedBody rest)
  | '"' :: rest => some ([], rest)
  | c :: rest =>
    Option.map (fun p => (c :: p.1, p.2)) (parseQuotedBody rest)

/-- Numeric value of a digit character. -/
def digitVal (c : Char) : Nat := c.toNat - 48

/-- Decimal value of a digit run. -/
def digitsToNat (ds : List Char) : Nat := ds.foldl (fun acc c => acc * 10 + digitVal c) 0

/-- Characters that may follow a complete number/keyword token. -/
def isTermChar (c : Char) : Bool :=
  isWsChar c || c == ',' || c == ')' || c == '}' || c == ']'

/-- Modelled from the spec: a number is a digit run, an optional single
leading minus, and an optional single dot followed by digits; a malformed
run fails rather than being truncated (spec section 4.2). -/
def parseNumCore (neg : Bool) (cs : List Char) : Option (Lit × List Char) :=
  let ds := cs.takeWhile Char.isDigit
  let rest := cs.dropWhile Char.isDigit
  if ds.isEmpty then none
  else
    match rest with
    | '.' :: r2 =>
      let fs := r2.takeWhile Char.isDigit
      if fs.isEmpty then none
      else some (.num neg (digitsToNat ds) (some (String.mk fs)), r2.dropWhile Char.isDigit)
    | _ => some (.num neg (digitsToNat ds) none, rest)

/-- Number token with optional leading minus sign. -/
def parseNumTok : List Char → Option (Lit × List Char)
  | '-' :: rest => parseNumCore true rest
  | cs => parseNumCore false cs

/-- Modelled from the spec: the exact literal tokens `true`, `false`, `null`
(case-sensitive, matched as whole tokens) or a number, each accepted only
when followed by a token terminator or end of input (spec section 4.2). -/
def parseTok (cs : List Char) : Option (Lit × List Char) :=
  let raw :=
    if ['t', 'r', 'u', 'e'].isPrefixOf cs then some (Lit.bool true, cs.drop 4)
    else if ['f', 'a', 'l', 's', 'e'].isPrefixOf cs then some (Lit.bool false, cs.drop 5)
    else if ['n', 'u', 'l', 'l'].isPrefixOf cs then some (Lit.null, cs.drop 4)
    else parseNumTok cs
  match raw with
  | none => none
  | some (v, rest) =>
    match rest with
    | [] => some (v, [])
    | c :: _ => if isTermChar c then some (v, rest) else none

mutual

/-- Modelled from the spec: parse exactly one literal value — quoted string,
object, array, boolean, null, or number — advancing past it (spec section
4.2). Inside nested values the unquoted-string fallback does not apply. The
fuel argument only bounds recursion depth; `fakeEval` supplies enough fuel
for its input. -/
def parseValue : Nat → List Char → Except ParseError (Lit × List Char)
  | 0, _ => .error fuelMsg
  | fuel + 1, cs =>
    match skipWs cs with
    | [] => .error "Unexpected end of input while parsing a value"
    | '"' :: rest =>
      match parseQuotedBody rest with
      | some (body, rest2) => .ok (.str (String.mk body), rest2)
      | none => .error "Unterminated string literal"
    | '{' :: rest =>
      match skipWs rest with
      | '}' :: rest2 => .ok (.obj [], rest2)
      | rest1 =>
        match parseObjEntries fuel rest1 with
        | .ok (kvs, rest2) => .ok (.obj kvs, rest2)
        | .error e => .error e
    | '[' :: rest =>
      match skipWs rest with
      | ']' :: rest2 => .ok (.arr [], rest2)
      | rest1 =>
        match parseArrayItems fuel rest1 with
        | .ok (items, rest2) => .ok (.arr items, rest2)
        | .error e => .error e
    | cs1 =>
      match parseTok cs1 with
      | some (v, rest) => .ok (v, rest)
      | none => .error "Unexpected character in value"

/-- Modelled from the spec: comma-separated array items up to the closing
bracket (spec section 4.2). -/
def parseArrayItems : Nat → List Char → Except ParseError (List Lit × List Char)
  | 0, _ => .error fuelMsg
  | fuel + 1, cs =>
    match parseValue fuel cs with
    | .error e => .error e
    | .ok (v, rest) =>
      match skipWs rest with
      | ',' :: rest2 =>
        match parseArrayItems fuel rest2 with
        | .ok (vs, rest3) => .ok (v :: vs, rest3)
        | .error e => .error e
      | ']' :: rest2 => .ok ([v], rest2)
      | _ => .error "Unterminated array literal"

/-- Modelled from the spec: comma-separated `"key": value` object entries,
keys quoted, up to the closing brace (spec section 4.2). -/
def parseObjEntries : Nat → List Char → Except ParseError (List (String × Lit) × List Char)
  | 0, _ => .error fuelMsg
  | fuel + 1, cs =>
    match skipWs cs with
    | '"' :: rest =>
      match parseQuotedBody rest with
      | none => .error "Unterminated string literal"
      | some (key, rest1) =>
        match skipWs rest1 with
        | ':' :: rest2 =>
          match parseValue fuel rest2 with
          | .error e => .error e
          | .ok (v, rest3) =>
            match skipWs rest3 with
            | ',' :: rest4 =>
              match parseObjEntries fuel rest4 with
              | .ok (kvs, rest5) => .ok ((String.mk key, v) :: kvs, rest5)
              | .error e => .error e
            | '}' :: rest4 => .ok ([(String.mk key, v)], rest4)
            | _ => .error "Unterminated object literal"
        | _ => .error "Expected colon after object key"
    | _ => .error "Expected quoted key in object literal"

end

/-- Dispatch for a top-level call argument: `some none` marks a committed
standard literal (quoted string, object, array), `some (some r)` a complete
number/keyword token, `none` that no standard production applies and the
unquoted-string fallback is used. -/
def argKind (cs0 : List Char) : Option (Option (Lit × List Char)) :=
  match skipWs cs0 with
  | '"' :: _ => some none
  | '{' :: _ => some none
  | '[' :: _ => some none
  | cs1 =>
    match parseTok cs1 with
    | some r => some (some r)
    | none => none

/-- Whether a top-level call argument begins a standard literal production
(quoted string, object, array, number, or the exact tokens true/false/null
as whole tokens). -/
def beginsStandard (cs0 : List Char) : Bool := (argKind cs0).isSome

/-- Modelled from the spec: a top-level call argument. Standard literal
productions are attempted first; when none applies, the unquoted-string
fallback takes all characters verbatim — untrimmed, spaces preserved — up
to (but excluding) the next closing parenthesis or comma of the enclosing
argument list (spec section 4.2). -/
def parseArg (fuel : Nat) (cs0 : List Char) : Except ParseError (Lit × List Char) :=
  match argKind cs0 with
  | some none => parseValue fuel cs0
  | some (some r) => .ok r
  | none =>
    .ok (.str (String.mk (cs0.takeWhile isUnquotedChar)), cs0.dropWhile isUnquotedChar)

/-- Modelled from the spec: one or more comma-separated arguments followed by
the closing parenthesis (spec section 4.3, `argumentList`). -/
def parseArgsLoop : Nat → List Char → Except ParseError (List Lit × List Char)
  | 0, _ => .error fuelMsg
  | fuel + 1, cs =>
    match parseArg fuel cs with
    | .error e => .error e
    | .ok (v, rest) =>
      match skipWs rest with
      | ',' :: rest2 =>
        match parseArgsLoop fuel rest2 with
        | .ok (vs, rest3) => .ok (v :: vs, rest3)
        | .error e => .error e
      | ')' :: rest2 => .ok ([v], rest2)
      | _ => .error "Unterminated argument list"

/-- Modelled from the spec: the possibly-empty argument list after an opening
parenthesis; an immediate closing parenthesis is the empty production (spec
sections 4.3 and 4.4, zero-argument calls). -/
def parseArgsList (fuel : Nat) (cs : List Char) : Except ParseError (List Lit × List Char) :=
  match skipWs cs with
  | ')' :: rest => .ok ([], rest)
  | _ => parseArgsLoop fuel cs

/-- Modelled from the spec: one step of the dotted path — the identifier text
and the parsed argument lists of its call suffixes, empty for a plain
property access (spec section 3, "Segment"). -/
structure Segment where
  name : String
  calls : List (List Lit)

/-- Modelled from the spec: zero or more call suffixes. After a closing
parenthesis the next character must be end of input, a dot, or another
opening parenthesis; anything else is the parse error naming the offending
character and the three valid continuations (spec section 4.3). -/
def parseCallSuffixes : Nat → List Char → Except ParseError (List (List Lit) × List Char)
  | 0, _ => .error fuelMsg
  | fuel + 1, cs =>
    match cs with
    | '(' :: rest =>
      match parseArgsList fuel rest with
      | .error e => .error e
      | .ok (args, rest2) =>
        match rest2 with
        | [] => .ok ([args], [])
        | c :: tail =>
          if c = '.' then .ok ([args], c :: tail)
          else if c = '(' then
            match parseCallSuffixes fuel (c :: tail) with
            | .ok (more, rest3) => .ok (args :: more, rest3)
            | .error e => .error e
          else .error (afterCallMsg c)
    | _ => .ok ([], cs)

/-- Modelled from the spec: the dot-separated segment sequence forming the
expression (spec section 4.3, `expression := segment ('.' segment)*`). -/
def parseSegments : Nat → List Char → Except ParseError (List Segment)
  | 0, _ => .error fuelMsg
  | fuel + 1, cs =>
    let name := cs.takeWhile isNameChar
    let rest := cs.dropWhile isNameChar
    match parseCallSuffixes fuel rest with
    | .error e => .error e
    | .ok (calls, rest2) =>
      match rest2 with
      | [] => .ok [⟨String.mk name, calls⟩]
      | '.' :: rest3 =>
        match parseSegments fuel rest3 with
        | .ok segs => .ok (⟨String.mk name, calls⟩ :: segs)
        | .error e => .error e
      | _ => .error "Unexpected character in expression"

/-- Modelled from the spec and tests: apply a segment's call suffixes in
order; each invocation requires the current value to be callable, otherwise
it is a resolution error echoing the full expression (spec section 4.4
step 2). -/
def applyCalls (invoke : Invoke) (expression : String) :
    Node → List (List Lit) → Except EvalError Node
  | v, [] => .ok v
  | .callable f, args :: more => applyCalls invoke expression (invoke f args) more
  | _, _ :: _ => .error (resolutionError expression)

/-- Modelled from the spec and tests: process one segment. The name is looked
up on the current value; a missing name is a resolution error echoing the
full expression. With call suffixes the calls are applied with their parsed
argument lists. Without call syntax the looked-up value is kept, except that
— per the repository's test suite, which contradicts the spec here — a
callable resolved without call syntax is invoked with no arguments. -/
def stepSegment (invoke : Invoke) (expression : String) (cur : Node) (seg : Segment) :
    Except EvalError Node :=
  match lookupName cur seg.name with
  | none => .error (resolutionError expression)
  | some v =>
    match seg.calls with
    | [] =>
      match v with
      | .callable f => .ok (invoke f [])
      | _ => .ok v
    | calls => applyCalls invoke expression v calls

/-- Modelled from the spec: walk the segments strictly left to right,
threading the current value; the value after the last segment is the result
(spec section 4.4 steps 3-4). -/
def walkSegments (invoke : Invoke) (expression : String) :
    Node → List Segment → Except EvalError Node
  | cur, [] => .ok cur
  | cur, seg :: rest =>
    match stepSegment invoke expression cur seg with
    | .ok v => walkSegments invoke expression v rest
    | .error e => .error e

/-- Modelled from the spec: the single entry point
`evaluate(expression, rootNamespace)` (spec section 6; named `fakeEval` in
the source's test suite). A zero-length expression is rejected before any
parsing; parse errors surface as SyntaxError; otherwise the parsed segments
are walked against the root. The fuel budget is ample for the input. -/
def fakeEval (invoke : Invoke) (expression : String) (faker : Node) : Except EvalError Node :=
  if expression.length = 0 then .error emptyExprError
  else
    match parseSegments (2 * expression.length + 2) expression.data with
    | .error msg => .error ⟨.syntaxErr, msg⟩
    | .ok segs => walkSegments invoke expression faker segs

/-- Children of an object literal viewed as a container of value nodes. -/
def litChildren : Lit → List (String × Node)
  | .obj kvs => kvs.map (fun p => (p.1, Node.value p.2))
  | _ => []

/-- Reference data set standing in for `faker.definitions.airline.airline`
in the chaining tests. -/
def airlineData : List Lit :=
  [.obj [("name", .str "Aer Lingus"), ("iataCode", .str "EI")],
   .obj [("name", .str "Air India"), ("iataCode", .str "AI")]]

/-- Test invocation oracle: `airline.airline` returns the first element of
the reference data as a container; every other collaborator echoes its name
and its received argument list, making delivered arguments observable. -/
def fakerInvoke : Invoke := fun f args =>
  if f = "airline.airline" then .container (litChildren (airlineData.headD .null))
  else .value (.obj [(f, .arr args)])

/-- Test root namespace mirroring the modules the test suite exercises. -/
def fakerRoot : Node :=
  .container
    [("string", .container
        [("numeric", .callable "string.numeric"),
         ("alphanumeric", .callable "string.alphanumeric")]),
     ("helpers", .container
        [("slugify", .callable "helpers.slugify"),
         ("mustache", .callable "helpers.mustache")]),
     ("airline", .container [("airline", .callable "airline.airline")])]

/-- Oracle for the generic chaining witness: `bf` returns a container with a
property `c`; everything else echoes. -/
def chainInvoke : Invoke := fun f args =>
  if f = "bf" then .container [("c", .value (.str "x"))]
  else .value (.obj [(f, .arr args)])

/-- Root for the generic chaining witness. -/
def chainRoot : Node := .container [("a", .container [("b", .callable "bf")])]

/-- Error type thrown by the Faker class, from `src/errors/faker-error.ts`
as used in `src/faker.ts`. -/
structure FakerError where
  message : String
deriving DecidableEq

/-- The `locale` option of the `Faker` constructor's modern overload: a
single locale definition or an array of them (`src/faker.ts`). -/
inductive LocaleOption (L : Type) where
  | single : L → LocaleOption L
  | list : List L → LocaleOption L

/-- The locale-handling fragment of the `Faker` constructor
(`src/faker.ts` lines 296-310): an empty locale array throws a FakerError,
a non-empty array is merged by `mergeLocales` into `rawDefinitions`, a
single definition is taken as is. `mergeLocales` is a parameter because
`src/utils/merge-locales.ts` is absent from the corpus; the result models
the `rawDefinitions` field. -/
def fakerConstructor {L : Type} (mergeLocales : List L → L) :
    LocaleOption L → Except FakerError L
  | .single l => .ok l
  | .list ls =>
    if ls.length = 0 then
      .error ⟨"The locale option must contain at least one locale definition."⟩
    else .ok (mergeLocales ls)

/-! ## Helper lemmas -/

/-- Appending strings concatenates their character data. -/
theorem string_data_append (a b : String) : (a ++ b).data = a.data ++ b.data := rfl

/-- The character data of a one-character string. -/
theorem char_toString_data (c : Char) : c.toString.data = [c] := rfl

/-- An infix of a list is an infix of any right-extension of it. -/
theorem infix_append_right {α : Type} {l1 l2 : List α} (l3 : List α) (h : l1 <:+: l2) :
    l1 <:+: l2 ++ l3 := by
  obtain ⟨s, t, rfl⟩ := h
  exact ⟨s, t ++ l3, by simp⟩

/-- Every error produced while applying call suffixes is the resolution error
for the full expression. -/
theorem applyCalls_error_eq (invoke : Invoke) (expression : String) :
    ∀ (calls : List (List Lit)) (v : Node) (e : EvalError),
      applyCalls invoke expression v calls = .error e → e = resolutionError expression := by
  intro calls
  induction calls with
  | nil => intro v e h; simp [applyCalls] at h
  | cons args more ih =>
    intro v e h
    cases v with
    | callable f => exact ih (invoke f args) e (by simpa [applyCalls] using h)
    | value l => simp [applyCalls] at h; exact h.symm
    | container kvs => simp [applyCalls] at h; exact h.symm

/-- Every error produced while processing one segment is the resolution error
for the full expression. -/
theorem stepSegment_error_eq (invoke : Invoke) (expression : String) (cur : Node) (seg : Segment)
    (e : EvalError) (h : stepSegment invoke expression cur seg = .error e) :
    e = resolutionError expression := by
  unfold stepSegment at h
  split at h
  · injection h with h2; exact h2.symm
  · split at h
    · split at h <;> simp_all
    · exact applyCalls_error_eq invoke expression _ _ e h

/-- Every error produced by the walker is the resolution error for the full
expression. -/
theorem walkSegments_error_eq (invoke : Invoke) (expression : String) :
    ∀ (segs : List Segment) (cur : Node) (e : EvalError),
      walkSegments invoke expression cur segs = .error e → e = resolutionError expression := by
  intro segs
  induction segs with
  | nil => intro cur e h; simp [walkSegments] at h
  | cons seg rest ih =>
    intro cur e h
    unfold walkSegments at h
    split at h
    · exact ih _ e h
    · rename_i e2 heq
      injection h with h2
      subst h2
      exact stepSegment_error_eq invoke expression cur seg e2 heq

/-- A missing name yields the resolution error for the full expression. -/
theorem stepSegment_missing (invoke : Invoke) (expression : String) (cur : Node)
    (name : String) (cl : List (List Lit)) (h : lookupName cur name = none) :
    stepSegment invoke expression cur ⟨name, cl⟩ = .error (resolutionError expression) := by
  simp [stepSegment, h]

/-- A plain property access resolving to a non-callable keeps the value. -/
theorem stepSegment_prop (invoke : Invoke) (expression : String) (cur : Node)
    (name : String) (v : Node) (h : lookupName cur name = some v)
    (hv : isCallableNode v = false) :
    stepSegment invoke expression cur ⟨name, []⟩ = .ok v := by
  cases v with
  | callable f => simp [isCallableNode] at hv
  | value l => simp [stepSegment, h]
  | container kvs => simp [stepSegment, h]

/-- A plain property access resolving to a callable invokes it with no
arguments (auto-invocation, per the test suite). -/
theorem stepSegment_autoinvoke (invoke : Invoke) (expression : String) (cur : Node)
    (name f : String) (h : lookupName cur name = some (.callable f)) :
    stepSegment invoke expression cur ⟨name, []⟩ = .ok (invoke f []) := by
  simp [stepSegment, h]

/-- A single explicit call suffix delivers its parsed argument list unchanged
and positionally to the resolved callable. -/
theorem stepSegment_call (invoke : Invoke) (expression : String) (cur : Node)
    (name f : String) (args : List Lit) (h : lookupName cur name = some (.callable f)) :
    stepSegment invoke expression cur ⟨name, [args]⟩ = .ok (invoke f args) := by
  simp [stepSegment, h, applyCalls]

/-- The walker advances through a successful segment. -/
theorem walk_cons (invoke : Invoke) (expression : String) (cur v : Node) (seg : Segment)
    (rest : List Segment) (h : stepSegment invoke expression cur seg = .ok v) :
    walkSegments invoke expression cur (seg :: rest) = walkSegments invoke expression v rest := by
  have e0 : walkSegments invoke expression cur (seg :: rest)
      = (match stepSegment invoke expression cur seg with
         | .ok v => walkSegments invoke expression v rest
         | .error e => .error e) := rfl
  rw [e0, h]

/-- The walker propagates a failing segment's error. -/
theorem walk_cons_error (invoke : Invoke) (expression : String) (cur : Node) (seg : Segment)
    (rest : List Segment) (e : EvalError) (h : stepSegment invoke expression cur seg = .error e) :
    walkSegments invoke expression cur (seg :: rest) = .error e := by
  have e0 : walkSegments invoke expression cur (seg :: rest)
      = (match stepSegment invoke expression cur seg with
         | .ok v => walkSegments invoke expression v rest
         | .error e => .error e) := rfl
  rw [e0, h]

/-- Reduction of the call-suffix parser at a closing parenthesis followed by
a character that is neither a dot nor an opening parenthesis. -/
theorem c3_suffixes (n : Nat) (c : Char) (s : List Char) (h1 : c ≠ '.') (h2 : c ≠ '(') :
    parseCallSuffixes (n + 1) ('(' :: ')' :: c :: s) = .error (afterCallMsg c) := by
  have e3 : parseCallSuffixes (n + 1) ('(' :: ')' :: c :: s)
      = (if c = '.' then .ok ([([] : List Lit)], c :: s)
         else if c = '(' then
           match parseCallSuffixes n (c :: s) with
           | .ok (more, rest3) => .ok (([] : List Lit) :: more, rest3)
           | .error e => .error e
         else .error (afterCallMsg c)) := rfl
  rw [e3, if_neg h1, if_neg h2]

/-- Parsing `a.b()` followed by a bad continuation character fails with the
message naming that character. -/
theorem c3_parse (n : Nat) (c : Char) (s : List Char) (h1 : c ≠ '.') (h2 : c ≠ '(') :
    parseSegments (n + 3) ('a' :: '.' :: 'b' :: '(' :: ')' :: c :: s)
      = .error (afterCallMsg c) := by
  have e1 : parseSegments (n + 3) ('a' :: '.' :: 'b' :: '(' :: ')' :: c :: s)
      = (match parseSegments (n + 2) ('b' :: '(' :: ')' :: c :: s) with
         | .ok segs => .ok (⟨"a", []⟩ :: segs)
         | .error e => .error e) := rfl
  have e2 : parseSegments (n + 2) ('b' :: '(' :: ')' :: c :: s)
      = (match parseCallSuffixes (n + 1) ('(' :: ')' :: c :: s) with
         | .error e => .error e
         | .ok (calls, rest2) =>
           match rest2 with
           | [] => .ok [⟨"b", calls⟩]
           | '.' :: rest3 =>
             match parseSegments (n + 1) rest3 with
             | .ok segs => .ok (⟨"b", calls⟩ :: segs)
             | .error e => .error e
           | _ => .error "Unexpected character in expression") := rfl
  rw [e1, e2, c3_suffixes n c s h1 h2]

/-! ## Claim theorems -/

/-- C1 counterexample: the claim that a trailing plain property access whose
value is callable returns the callable as an uninvoked reference is false.
For `string.numeric`, `numeric` resolves to a callable on the `string`
container, yet the evaluation result is the collaborator's return value for
an empty-argument invocation, not the callable reference — matching the test
suite, which asserts the spy was called. -/
theorem claim_C1_counterexample :
    fakeEval fakerInvoke "string.numeric" fakerRoot
        = .ok (.value (.obj [("string.numeric", .arr [])])) ∧
    fakeEval fakerInvoke "string.numeric" fakerRoot ≠ .ok (.callable "string.numeric") ∧
    lookupName fakerRoot "string"
        = some (.container [("numeric", .callable "string.numeric"),
                            ("alphanumeric", .callable "string.alphanumeric")]) ∧
    lookupName (.container [("numeric", .callable "string.numeric"),
                            ("alphanumeric", .callable "string.alphanumeric")]) "numeric"
        = some (.callable "string.numeric") := by
  refine ⟨rfl, ?_, rfl, rfl⟩
  intro h
  rw [show fakeEval fakerInvoke "string.numeric" fakerRoot
      = .ok (.value (.obj [("string.numeric", .arr [])])) from rfl] at h
  injection h with h2
  exact Node.noConfusion h2

/-- C1 (amended): for an expression ending in a plain property access,
evaluation returns the looked-up value unchanged when it is not callable; a
callable resolved without call syntax is instead invoked with no arguments
and its return value is the result. Stated for `string.numeric` over an
arbitrary root namespace and invocation oracle. -/
theorem claim_C1_trailing_resolution (invoke : Invoke) (root S : Node)
    (hS : lookupName root "string" = some S) (hSc : isCallableNode S = false) :
    (∀ f, lookupName S "numeric" = some (.callable f) →
      fakeEval invoke "string.numeric" root = .ok (invoke f [])) ∧
    (∀ v, lookupName S "numeric" = some v → isCallableNode v = false →
      fakeEval invoke "string.numeric" root = .ok v) := by
  have hred : fakeEval invoke "string.numeric" root
      = walkSegments invoke "string.numeric" root [⟨"string", []⟩, ⟨"numeric", []⟩] := rfl
  constructor
  · intro f hf
    rw [hred,
      walk_cons _ _ _ _ _ _ (stepSegment_prop invoke "string.numeric" root "string" S hS hSc),
      walk_cons _ _ _ _ _ _ (stepSegment_autoinvoke invoke "string.numeric" S "numeric" f hf)]
    rfl
  · intro v hv hvc
    rw [hred,
      walk_cons _ _ _ _ _ _ (stepSegment_prop invoke "string.numeric" root "string" S hS hSc),
      walk_cons _ _ _ _ _ _ (stepSegment_prop invoke "string.numeric" S "numeric" v hv hvc)]
    rfl

/-- C1 witness: the amended theorem applied to the concrete test fixture. -/
theorem claim_C1_witness :
    fakeEval fakerInvoke "string.numeric" fakerRoot = .ok (fakerInvoke "string.numeric" []) :=
  (claim_C1_trailing_resolution fakerInvoke fakerRoot _ rfl rfl).1 "string.numeric" rfl

/-- C2: whenever evaluation fails with an error of the resolution kind, the
message contains the full original expression string as a substring; and
`evaluate("foo.bar", root)` with `root.foo` absent fails with exactly the
resolution error whose message is
`Cannot resolve expression 'foo.bar'`. -/
theorem claim_C2_resolution_error :
    (∀ (invoke : Invoke) (expression : String) (root : Node) (e : EvalError),
      fakeEval invoke expression root = .error e → e.kind = .resolution →
      expression.data <:+: e.message.data) ∧
    (∀ (invoke : Invoke) (root : Node), lookupName root "foo" = none →
      fakeEval invoke "foo.bar" root = .error (resolutionError "foo.bar")) := by
  constructor
  · intro invoke expression root e h hk
    unfold fakeEval at h
    split at h
    · injection h with h2
      subst h2
      simp [emptyExprError] at hk
    · split at h
      · injection h with h2
        subst h2
        simp at hk
      · have he := walkSegments_error_eq invoke expression _ _ e h
        subst he
        exact ⟨"Cannot resolve expression '".data, "'".data, rfl⟩
  · intro invoke root h
    have hred : fakeEval invoke "foo.bar" root
        = walkSegments invoke "foo.bar" root [⟨"foo", []⟩, ⟨"bar", []⟩] := rfl
    rw [hred]
    exact walk_cons_error invoke "foo.bar" root ⟨"foo", []⟩ _ _
      (stepSegment_missing invoke "foo.bar" root "foo" [] h)

/-- C2 witness: the theorem applied to `foo.bar` against the test fixture,
whose root has no `foo` entry. -/
theorem claim_C2_witness :
    "foo.bar".data <:+: (resolutionError "foo.bar").message.data ∧
    fakeEval fakerInvoke "foo.bar" fakerRoot = .error (resolutionError "foo.bar") :=
  ⟨claim_C2_resolution_error.1 fakerInvoke "foo.bar" fakerRoot (resolutionError "foo.bar") rfl rfl,
   claim_C2_resolution_error.2 fakerInvoke fakerRoot rfl⟩

/-- C3: for any character `c` other than a dot or an opening parenthesis and
any continuation, an expression whose call suffix's closing parenthesis is
followed by `c` fails with a SyntaxError whose message is the expected-dot
message; that message contains the offending character and mentions the
dot, the open parenthesis, and "nothing" as the valid continuations. -/
theorem claim_C3_trailing_after_call (invoke : Invoke) (root : Node) (c : Char) (s : List Char)
    (h1 : c ≠ '.') (h2 : c ≠ '(') :
    fakeEval invoke (String.mk ('a' :: '.' :: 'b' :: '(' :: ')' :: c :: s)) root
      = .error ⟨.syntaxErr, afterCallMsg c⟩ ∧
    [c] <:+: (afterCallMsg c).data ∧
    "dot ('.')".data <:+: (afterCallMsg c).data ∧
    "open parenthesis ('(')".data <:+: (afterCallMsg c).data ∧
    "nothing".data <:+: (afterCallMsg c).data := by
  have hlen : (String.mk ('a' :: '.' :: 'b' :: '(' :: ')' :: c :: s)).length = s.length + 6 := by
    simp only [String.length, List.length_cons]
  refine ⟨?_, ?_, ?_, ?_, ?_⟩
  · unfold fakeEval
    rw [if_neg (by rw [hlen]; omega)]
    rw [hlen]
    rw [show (String.mk ('a' :: '.' :: 'b' :: '(' :: ')' :: c :: s)).data
        = 'a' :: '.' :: 'b' :: '(' :: ')' :: c :: s from rfl]
    rw [show 2 * (s.length + 6) + 2 = (2 * s.length + 11) + 3 from by omega]
    rw [c3_parse (2 * s.length + 11) c s h1 h2]
  · exact ⟨("Expected dot ('.'), open parenthesis ('('), or nothing after function call but got '").data,
      "'".data, rfl⟩
  · exact infix_append_right _ (infix_append_right _
      ⟨"Expected ".data,
       (", open parenthesis ('('), or nothing after function call but got '").data, rfl⟩)
  · exact infix_append_right _ (infix_append_right _
      ⟨"Expected dot ('.'), ".data,
       (", or nothing after function call but got '").data, rfl⟩)
  · exact infix_append_right _ (infix_append_right _
      ⟨"Expected dot ('.'), open parenthesis ('('), or ".data,
       (" after function call but got '").data, rfl⟩)

/-- C3 witness: the theorem applied at offending character `i` with the
continuation `ataCode`, mirroring the test's `airline.airline()iataCode`. -/
theorem claim_C3_witness :
    fakeEval fakerInvoke (String.mk ('a' :: '.' :: 'b' :: '(' :: ')' :: 'i' :: "ataCode".data))
        fakerRoot = .error ⟨.syntaxErr, afterCallMsg 'i'⟩ :=
  (claim_C3_trailing_after_call fakerInvoke fakerRoot 'i' "ataCode".data
    (by decide) (by decide)).1

/-- C4: for every root namespace and every invocation oracle, evaluating the
empty string fails with the empty-expression error, whose kind is the
distinct EmptyExpressionError kind, different from both other kinds. -/
theorem claim_C4_empty_expression (invoke : Invoke) (root : Node) :
    fakeEval invoke "" root = .error emptyExprError ∧
    emptyExprError.kind = .emptyExpression ∧
    ErrKind.emptyExpression ≠ ErrKind.syntaxErr ∧
    ErrKind.emptyExpression ≠ ErrKind.resolution :=
  ⟨rfl, rfl, by decide, by decide⟩

/-- C5: a top-level call argument that begins no standard literal production
is parsed by the unquoted-string fallback into exactly the verbatim run of
characters up to (excluding) the next closing parenthesis or comma, with no
trimming; and end to end, `helpers.slugify(This Works)` delivers the literal
string `This Works`, internal space preserved, to the collaborator. -/
theorem claim_C5_unquoted_fallback :
    (∀ (fuel : Nat) (cs0 : List Char), beginsStandard cs0 = false →
      parseArg fuel cs0
        = .ok (.str (String.mk (cs0.takeWhile isUnquotedChar)), cs0.dropWhile isUnquotedChar)) ∧
    fakeEval fakerInvoke "helpers.slugify(This Works)" fakerRoot
      = .ok (.value (.obj [("helpers.slugify", .arr [.str "This Works"])])) := by
  refine ⟨?_, rfl⟩
  intro fuel cs0 h
  unfold beginsStandard at h
  unfold parseArg
  cases hk : argKind cs0 with
  | none => rfl
  | some val => rw [hk] at h; simp at h

/-- C5 witness: the fallback theorem applied to the argument text
`This Works`, which begins no standard production. -/
theorem claim_C5_witness :
    parseArg 0 "This Works".data
      = .ok (.str (String.mk ("This Works".data.takeWhile isUnquotedChar)),
             "This Works".data.dropWhile isUnquotedChar) :=
  claim_C5_unquoted_fallback.1 0 "This Works".data rfl

/-- C6: the complex object argument of the test suite is parsed recursively
and delivered to the collaborator with types preserved — the number as a
Number literal, the boolean as a Boolean, the nested array as an Array of a
String — exactly as the structured value, not stringified. -/
theorem claim_C6_complex_object_argument :
    fakeEval fakerInvoke
        "string.numeric(\x7b \"length\": 5, \"allowLeadingZeros\": true, \"exclude\": [\"5\"] \x7d)"
        fakerRoot
      = .ok (.value (.obj [("string.numeric",
          .arr [.obj [("length", .num false 5 none),
                      ("allowLeadingZeros", .bool true),
                      ("exclude", .arr [.str "5"])]])])) := rfl

/-- C7 counterexample: the claim that a bare name segment never invokes is
false, and so is the claimed observable distinction from `name()`: for the
callable `helpers.slugify`, the bare form evaluates to exactly the same
invocation result as the explicit zero-argument call, and does not return
the callable reference. -/
theorem claim_C7_counterexample :
    fakeEval fakerInvoke "helpers.slugify" fakerRoot
        = fakeEval fakerInvoke "helpers.slugify()" fakerRoot ∧
    fakeEval fakerInvoke "helpers.slugify" fakerRoot ≠ .ok (.callable "helpers.slugify") ∧
    fakeEval fakerInvoke "helpers.slugify" fakerRoot
        = .ok (.value (.obj [("helpers.slugify", .arr [])])) := by
  refine ⟨rfl, ?_, rfl⟩
  intro h
  rw [show fakeEval fakerInvoke "helpers.slugify" fakerRoot
      = .ok (.value (.obj [("helpers.slugify", .arr [])])) from rfl] at h
  injection h with h2
  exact Node.noConfusion h2

/-- C7 (amended): a segment written with zero-argument parentheses parses the
empty argument-list production without error and invokes the resolved
callable with an empty argument list; a bare name resolving to a callable is
likewise auto-invoked with an empty argument list, so the two forms agree on
callables (they differ only on non-callable values, which a bare name
returns unchanged). Stated over an arbitrary root namespace and oracle. -/
theorem claim_C7_empty_call (invoke : Invoke) (root H : Node) (f : String)
    (hH : lookupName root "helpers" = some H) (hHc : isCallableNode H = false)
    (hf : lookupName H "slugify" = some (.callable f)) :
    fakeEval invoke "helpers.slugify()" root = .ok (invoke f []) ∧
    fakeEval invoke "helpers.slugify" root = .ok (invoke f []) := by
  constructor
  · have hred : fakeEval invoke "helpers.slugify()" root
        = walkSegments invoke "helpers.slugify()" root [⟨"helpers", []⟩, ⟨"slugify", [[]]⟩] := rfl
    rw [hred,
      walk_cons _ _ _ _ _ _ (stepSegment_prop invoke "helpers.slugify()" root "helpers" H hH hHc),
      walk_cons _ _ _ _ _ _ (stepSegment_call invoke "helpers.slugify()" H "slugify" f [] hf)]
    rfl
  · have hred : fakeEval invoke "helpers.slugify" root
        = walkSegments invoke "helpers.slugify" root [⟨"helpers", []⟩, ⟨"slugify", []⟩] := rfl
    rw [hred,
      walk_cons _ _ _ _ _ _ (stepSegment_prop invoke "helpers.slugify" root "helpers" H hH hHc),
      walk_cons _ _ _ _ _ _ (stepSegment_autoinvoke invoke "helpers.slugify" H "slugify" f hf)]
    rfl

/-- C7 witness: the amended theorem applied to the concrete test fixture. -/
theorem claim_C7_witness :
    fakeEval fakerInvoke "helpers.slugify()" fakerRoot = .ok (fakerInvoke "helpers.slugify" []) ∧
    fakeEval fakerInvoke "helpers.slugify" fakerRoot = .ok (fakerInvoke "helpers.slugify" []) :=
  claim_C7_empty_call fakerInvoke fakerRoot _ "helpers.slugify" rfl rfl rfl

/-- C8 (amended): chaining works in both directions — in `a.b().c` the call
is evaluated first and `c` is looked up on its return value; in `a.b.c` with
`a.b` callable, the callable is first invoked with no arguments and `c` is
resolved on its return value (not on the uninvoked callable); and on the
airline fixture both forms produce fields of an element of the reference
data set. -/
theorem claim_C8_chaining :
    (∀ (invoke : Invoke) (root A R v : Node) (f : String),
      lookupName root "a" = some A → isCallableNode A = false →
      lookupName A "b" = some (.callable f) →
      invoke f [] = R →
      lookupName R "c" = some v → isCallableNode v = false →
      fakeEval invoke "a.b().c" root = .ok v ∧ fakeEval invoke "a.b.c" root = .ok v) ∧
    fakeEval fakerInvoke "airline.airline().name" fakerRoot = .ok (.value (.str "Aer Lingus")) ∧
    fakeEval fakerInvoke "airline.airline.iataCode" fakerRoot = .ok (.value (.str "EI")) ∧
    Lit.obj [("name", .str "Aer Lingus"), ("iataCode", .str "EI")] ∈ airlineData := by
  refine ⟨?_, rfl, rfl, List.Mem.head _⟩
  intro invoke root A R v f h1 hA h2 hR h3 hv
  constructor
  · have hred : fakeEval invoke "a.b().c" root
        = walkSegments invoke "a.b().c" root [⟨"a", []⟩, ⟨"b", [[]]⟩, ⟨"c", []⟩] := rfl
    rw [hred,
      walk_cons _ _ _ _ _ _ (stepSegment_prop invoke "a.b().c" root "a" A h1 hA),
      walk_cons _ _ _ _ _ _ (stepSegment_call invoke "a.b().c" A "b" f [] h2), hR,
      walk_cons _ _ _ _ _ _ (stepSegment_prop invoke "a.b().c" R "c" v h3 hv)]
    rfl
  · have hred : fakeEval invoke "a.b.c" root
        = walkSegments invoke "a.b.c" root [⟨"a", []⟩, ⟨"b", []⟩, ⟨"c", []⟩] := rfl
    rw [hred,
      walk_cons _ _ _ _ _ _ (stepSegment_prop invoke "a.b.c" root "a" A h1 hA),
      walk_cons _ _ _ _ _ _ (stepSegment_autoinvoke invoke "a.b.c" A "b" f h2), hR,
      walk_cons _ _ _ _ _ _ (stepSegment_prop invoke "a.b.c" R "c" v h3 hv)]
    rfl

/-- C8 witness: the general chaining theorem applied to a concrete root with
`a.b` a callable whose result carries a `c` property. -/
theorem claim_C8_witness :
    fakeEval chainInvoke "a.b().c" chainRoot = .ok (.value (.str "x")) ∧
    fakeEval chainInvoke "a.b.c" chainRoot = .ok (.value (.str "x")) :=
  claim_C8_chaining.1 chainInvoke chainRoot _ _ _ "bf" rfl rfl rfl rfl rfl rfl

/-- C8 counterexample: the claimed mechanism for `airline.airline.iataCode` —
resolving `iataCode` from the uninvoked callable directly — is false: the
uninvoked callable exposes no `iataCode` property, and resolving it there
directly yields a resolution error, while the actual evaluation succeeds
with a value drawn from the reference data (so the callable was invoked
first). -/
theorem claim_C8_counterexample :
    fakeEval fakerInvoke "airline.airline.iataCode" fakerRoot = .ok (.value (.str "EI")) ∧
    lookupName (.callable "airline.airline") "iataCode" = none ∧
    walkSegments fakerInvoke "airline.airline.iataCode" (.callable "airline.airline")
        [⟨"iataCode", []⟩]
      = .error (resolutionError "airline.airline.iataCode") := ⟨rfl, rfl, rfl⟩

/-- C9: a call segment delivers its parsed argument list unchanged —
positionally and in left-to-right order — to the resolved callable; and end
to end, the mustache example delivers the quoted string as the first
argument and the object as the second, in order. -/
theorem claim_C9_positional_args :
    (∀ (invoke : Invoke) (expression : String) (cur : Node) (name f : String) (args : List Lit),
      lookupName cur name = some (.callable f) →
      stepSegment invoke expression cur ⟨name, [args]⟩ = .ok (invoke f args)) ∧
    fakeEval fakerInvoke "helpers.mustache(\"\x7b\x7bfoo\x7d\x7d\", \x7b \"foo\": \"bar\" \x7d)"
        fakerRoot
      = .ok (.value (.obj [("helpers.mustache",
          .arr [.str "\x7b\x7bfoo\x7d\x7d", .obj [("foo", .str "bar")]])])) := by
  refine ⟨?_, rfl⟩
  intro invoke expression cur name f args h
  exact stepSegment_call invoke expression cur name f args h

/-- C9 witness: the theorem applied to a concrete callable receiving a number
and a string, in order. -/
theorem claim_C9_witness :
    stepSegment fakerInvoke "m(1, y)" (.container [("m", .callable "mf")])
        ⟨"m", [[.num false 1 none, .str "y"]]⟩
      = .ok (fakerInvoke "mf" [.num false 1 none, .str "y"]) :=
  claim_C9_positional_args.1 fakerInvoke "m(1, y)" (.container [("m", .callable "mf")])
    "m" "mf" [.num false 1 none, .str "y"] rfl

/-- C10: constructing a Faker with the locale option given as an empty array
always throws the FakerError stating that the locale option must contain at
least one locale definition, for every merge function; with a non-empty
array the locale definitions are merged into `rawDefinitions` and that error
is not thrown. -/
theorem claim_C10_locale_array :
    (∀ (L : Type) (mergeLocales : List L → L),
      fakerConstructor mergeLocales (.list [])
        = .error ⟨"The locale option must contain at least one locale definition."⟩) ∧
    (∀ (L : Type) (mergeLocales : List L → L) (ls : List L), ls ≠ [] →
      fakerConstructor mergeLocales (.list ls) = .ok (mergeLocales ls)) := by
  constructor
  · intro L m
    rfl
  · intro L m ls h
    have e0 : fakerConstructor m (.list ls)
        = (if ls.length = 0 then
             (.error ⟨"The locale option must contain at least one locale definition."⟩
               : Except FakerError L)
           else .ok (m ls)) := rfl
    rw [e0, if_neg (by simpa [List.length_eq_zero] using h)]

/-- C10 witness: the theorem applied to a concrete merge function, a
one-element array, and the empty array. -/
theorem claim_C10_witness :
    fakerConstructor (fun ls => ls.headD 0) (.list [(7 : Nat)]) = .ok 7 ∧
    fakerConstructor (fun ls => ls.headD 0) (.list ([] : List Nat))
      = .error ⟨"The locale option must contain at least one locale definition."⟩ :=
  ⟨claim_C10_locale_array.2 Nat (fun ls => ls.headD 0) [7] (by simp),
   claim_C10_locale_array.1 Nat (fun ls => ls.headD 0)⟩

end FakerEval
